import Mathlib

/-!
Shallow embedding of the render-control dispatcher in
src/distrib/android-emugl/host/libs/libOpenglRender/RenderControl.cpp.

The mutable world is split into:
  * `GrallocSyncState` — the process-wide ordering gate (the GrallocSync
    singleton: an enabled flag read from the feature control, plus whether
    the lock `mGrallocCbLock` is currently held);
  * `FBState` — the mutable part of the FrameBuffer singleton that the
    claims inspect (color-buffer reference counts, created render contexts,
    the backend call logs);
  * `RCState` — gate plus `Option FBState`; `none` models
    `FrameBuffer::getFB()` returning null (backend absent).
Read-only host facts (feature flags, driver strings, call outcomes of
backend operations whose bodies are outside this file) live in `Env`.
Operations that the C++ can crash on (null dereference) return `Option`,
with `none` marking the dereference of a null pointer.
-/

/-- Ordering gate: the GrallocSync singleton.  `mEnabled` is set in the
constructor from the GrallocSync feature flag; `mLocked` says whether
`mGrallocCbLock` is held. -/
structure GrallocSyncState where
  mEnabled : Bool
  mLocked : Bool
deriving DecidableEq

/-- GrallocSync::lockCb — `if (mEnabled) mGrallocCbLock.lock();` -/
def GrallocSyncState.lockCb (g : GrallocSyncState) : GrallocSyncState :=
  if g.mEnabled then { g with mLocked := true } else g

/-- GrallocSync::unlockCb — `if (mEnabled) mGrallocCbLock.unlock();` -/
def GrallocSyncState.unlockCb (g : GrallocSyncState) : GrallocSyncState :=
  if g.mEnabled then { g with mLocked := false } else g

/-- One recorded FrameBuffer::updateColorBuffer call. -/
structure UpdateEntry where
  cb : Nat
  x : Int
  y : Int
  width : Int
  height : Int
  format : Nat
  typ : Nat
deriving DecidableEq

/-- Mutable FrameBuffer state visible to the claims.  The color-buffer
reference counts are an association list handle ↦ count; `contexts`
records each render context the backend was asked to create, as
(handle, isGL2); `updateLog` and `flushLog` record the backend pixel
operations and the flushed window surfaces. -/
structure FBState where
  cbRefs : List (Nat × Nat)
  contexts : List (Nat × Bool)
  nextHandle : Nat
  numConfigs : Nat
  numAttribs : Nat
  updateLog : List UpdateEntry
  flushLog : List Nat
deriving DecidableEq

/-- Whole dispatcher-visible mutable state: the ordering gate and
`FrameBuffer::getFB()` (none = backend absent). -/
structure RCState where
  gralloc : GrallocSyncState
  fb : Option FBState
deriving DecidableEq

/-- Read-only environment: feature flags, the EGL/GLES driver string
tables, the checksum helper's maximum version string, and the outcomes of
backend calls whose implementations are outside RenderControl.cpp. -/
structure Env where
  grallocSyncEnabled : Bool
  checksumEnabled : Bool
  eglString : Nat → Option String
  glString2 : Nat → Option String
  glString1 : Nat → Option String
  maxVersionString : String
  flushOk : Nat → Bool
  packConfigsResult : Nat → Int

/-- The NUL terminator byte. -/
def nulChar : Char := Char.ofNat 0

/-- Numeric value of the GL_EXTENSIONS enum (0x1F03). -/
def GL_EXTENSIONS : Nat := 7939

/-- Increment the reference count stored for `cb` (spec: open starts a
reference when none is recorded yet). -/
def bumpRef (cb : Nat) : List (Nat × Nat) → List (Nat × Nat)
  | [] => [(cb, 1)]
  | (k, n) :: rest =>
      if k = cb then (k, n + 1) :: rest else (k, n) :: bumpRef cb rest

/-- Reference count recorded for `cb` (0 when absent). -/
def refCount (cb : Nat) : List (Nat × Nat) → Nat
  | [] => 0
  | (k, n) :: rest => if k = cb then n else refCount cb rest

/-- Modelled from the spec: FrameBuffer::openColorBuffer (FrameBuffer.cpp
is not part of the sources) — "increments a reference on a color buffer
so it is not freed while still in guest use"; returns a status code. -/
def FBState.openColorBuffer (fb : FBState) (cb : Nat) : Int × FBState :=
  (0, { fb with cbRefs := bumpRef cb fb.cbRefs })

/-- Modelled from the spec: FrameBuffer::createRenderContext
(FrameBuffer.cpp is not part of the sources) — allocates a fresh nonzero
handle for a context of the requested kind. -/
def FBState.createRenderContext (fb : FBState) (config share : Nat)
    (isGL2 : Bool) : Nat × FBState :=
  (fb.nextHandle,
   { fb with contexts := fb.contexts ++ [(fb.nextHandle, isGL2)],
             nextHandle := fb.nextHandle + 1 })

/-- Modelled from the spec: FrameBuffer::updateColorBuffer
(FrameBuffer.cpp is not part of the sources) — "writes a sub-rectangle
into backend storage"; recorded in the update log. -/
def FBState.updateColorBuffer (fb : FBState) (cb : Nat) (x y w h : Int)
    (format typ : Nat) : FBState :=
  { fb with updateLog := fb.updateLog ++ [⟨cb, x, y, w, h, format, typ⟩] }

/-- Modelled from the spec: FrameBuffer::flushWindowSurfaceColorBuffer
(FrameBuffer.cpp is not part of the sources) — flushes the surface's
attached color buffer; may fail, the outcome given by the environment. -/
def FBState.flushWindowSurfaceColorBuffer (fb : FBState) (env : Env)
    (ws : Nat) : Bool × FBState :=
  (env.flushOk ws, { fb with flushLog := fb.flushLog ++ [ws] })

/-- rcColorBufferCacheFlush — locks the gralloc gate and returns 0; the
arguments are not consulted and no backend call is made. -/
def rcColorBufferCacheFlush (colorBuffer : Nat) (postCount : Int)
    (forRead : Int) (s : RCState) : Int × RCState :=
  (0, { s with gralloc := s.gralloc.lockCb })

/-- rcUpdateColorBuffer — if the backend is absent, returns -1 at once
(the early return skips unlockCb); otherwise performs the update, unlocks
the gate and returns 0. -/
def rcUpdateColorBuffer (colorBuffer : Nat) (x y width height : Int)
    (format typ : Nat) (s : RCState) : Int × RCState :=
  match s.fb with
  | none => (-1, s)
  | some fb =>
      let fb1 := fb.updateColorBuffer colorBuffer x y width height format typ
      (0, { s with fb := some fb1, gralloc := s.gralloc.unlockCb })

/-- rcFlushWindowColorBuffer — locks the gate, then returns -1 at once if
the backend is absent or the flush fails (both early returns skip
unlockCb); on success unlocks the gate and returns 0. -/
def rcFlushWindowColorBuffer (env : Env) (windowSurface : Nat)
    (s : RCState) : Int × RCState :=
  let s0 : RCState := { s with gralloc := s.gralloc.lockCb }
  match s0.fb with
  | none => (-1, s0)
  | some fb =>
      let r := fb.flushWindowSurfaceColorBuffer env windowSurface
      let s1 : RCState := { s0 with fb := some r.2 }
      if r.1 = false then (-1, s1)
      else (0, { s1 with gralloc := s1.gralloc.unlockCb })

/-- rcGetNumConfigs — `FrameBuffer::getFB()->getConfigs()->getPackInfo`
with no null check on getFB(); `none` models the null dereference.
Returns (numConfigs, value stored through p_numAttribs). -/
def rcGetNumConfigs (s : RCState) : Option (Int × Nat) :=
  match s.fb with
  | none => none
  | some fb => some ((fb.numConfigs : Int), fb.numAttribs)

/-- rcGetConfigs — `FrameBuffer::getFB()->getConfigs()->packConfigs`
with no null check on getFB(); `none` models the null dereference. -/
def rcGetConfigs (env : Env) (bufSize : Nat) (s : RCState) : Option Int :=
  match s.fb with
  | none => none
  | some _ => some (env.packConfigsResult bufSize)

/-- rcQueryEGLString — buffer is the caller's byte region (`none` models
a null pointer); the result is (return code, region afterwards). -/
def rcQueryEGLString (env : Env) (name : Nat)
    (buffer : Option (List Char)) (bufferSize : Int) (s : RCState) :
    Int × Option (List Char) :=
  match s.fb with
  | none => (0, buffer)
  | some _ =>
      match env.eglString name with
      | none => (0, buffer)
      | some str =>
          let len : Int := (str.data.length : Int) + 1
          match buffer with
          | none => (-len, none)
          | some b =>
              if len > bufferSize then (-len, some b)
              else (len, some (str.data ++ [nulChar] ++
                                b.drop (str.data.length + 1)))

/-- rcCreateContext — GLES2 kind exactly when the version hint is 2 or 3;
handle 0 when the backend is absent. -/
def rcCreateContext (config share glVersion : Nat) (s : RCState) :
    Nat × RCState :=
  match s.fb with
  | none => (0, s)
  | some fb =>
      let r := fb.createRenderContext config share
                 (glVersion == 2 || glVersion == 3)
      (r.1, { s with fb := some r.2 })

/-- rcOpenColorBuffer2 — -1 when the backend is absent, else the backend
openColorBuffer result. -/
def rcOpenColorBuffer2 (colorbuffer : Nat) (s : RCState) : Int × RCState :=
  match s.fb with
  | none => (-1, s)
  | some fb =>
      let r := fb.openColorBuffer colorbuffer
      (r.1, { s with fb := some r.2 })

/-- rcOpenColorBuffer — `(void) rcOpenColorBuffer2(colorbuffer);`. -/
def rcOpenColorBuffer (colorbuffer : Nat) (s : RCState) : RCState :=
  (rcOpenColorBuffer2 colorbuffer s).2

/-- A rendering context as RenderControl sees it: its handle and whether
it is a GLES2-family context. -/
structure RContext where
  handle : Nat
  isGL2 : Bool
deriving DecidableEq

/-- Per-thread registry entry (RenderThreadInfo): the context currently
bound on the calling thread, if any. -/
structure RenderThreadInfo where
  currContext : Option RContext
deriving DecidableEq

/-- EGL-level calls issued by the trivial-context fallback, recorded so
the fallback's interaction with the backend is visible. -/
inductive EGLCall where
  | getConfig (idx : Nat)
  | createContext (cfg : Nat) (shareCtx : Option Nat) (isGL2 : Bool)
  | createPbufferSurface (cfg : Nat) (width height : Nat)
  | makeCurrent (draw reed ctx : Nat)
deriving DecidableEq

/-- Bytes stored by `snprintf(buf, cap, ...)` when the formatted text is
`s`: nothing when cap ≤ 0, else at most cap-1 characters plus NUL. -/
def snprintfBytes (cap : Int) (s : List Char) : List Char :=
  if cap ≤ 0 then [] else s.take (cap - 1).toNat ++ [nulChar]

/-- create_trivial_context — given the (already dereferenced) FrameBuffer:
takes config 0, creates a GLES2 context with no share context, creates a
1x1 pbuffer surface on the same config, and makes the pair current with
the surface as both draw and read target.  RenderContext::create and the
EGL surface/bind calls live outside these sources; they are recorded as
trace events, with the fresh context handle `fb.nextHandle` and the fresh
surface identifier `fb.nextHandle + 1`. -/
def create_trivial_context (fb : FBState) :
    RContext × FBState × List EGLCall :=
  let cId := fb.nextHandle
  let sId := fb.nextHandle + 1
  (⟨cId, true⟩,
   { fb with contexts := fb.contexts ++ [(cId, true)],
             nextHandle := fb.nextHandle + 2 },
   [EGLCall.getConfig 0,
    EGLCall.createContext 0 none true,
    EGLCall.createPbufferSurface 0 1 1,
    EGLCall.makeCurrent sId sId cId])

/-- First half of rcGetGLString: obtain the raw driver string.  With a
bound context the string comes from the GLES2 or GLES1 entry point; with
none, the trivial-context fallback runs (dereferencing the FrameBuffer
without a null check, and calling strlen on the GLES2 string without a
null check — both `none` cases model those crashes, as does a null
RenderThreadInfo, which the else branch dereferences).  Returns the
string bytes, the thread registry entry afterwards, the FrameBuffer
afterwards, and the EGL calls issued. -/
def getGLStringPhase1 (env : Env) (name : Nat)
    (tInfo : Option RenderThreadInfo) (s : RCState) :
    Option (Option (List Char) × RenderThreadInfo × Option FBState ×
            List EGLCall) :=
  match tInfo with
  | none => none
  | some t =>
      match t.currContext with
      | some ctx =>
          let str := if ctx.isGL2 then env.glString2 name
                     else env.glString1 name
          some (str.map String.data, t, s.fb, [])
      | none =>
          match s.fb with
          | none => none
          | some fb =>
              let r := create_trivial_context fb
              match env.glString2 name with
              | none => none
              | some s0 =>
                  some (some s0.data, ⟨some r.1⟩, some r.2.1, r.2.2)

/-- Second half of rcGetGLString: length accounting (with the checksum
protocol token appended for GL_EXTENSIONS when the feature is enabled)
and the buffer fill.  `str` is the raw driver string from phase 1;
returns the return code and the bytes written into the caller buffer. -/
def getGLStringPhase2 (env : Env) (name : Nat)
    (buffer : Option (List Char)) (bufferSize : Int)
    (str : Option (List Char)) : Int × List Char :=
  let len0 : Int := match str with
    | some d => (d.length : Int) + 1
    | none => 0
  let len : Int :=
    if env.checksumEnabled = true ∧ name = GL_EXTENSIONS then
      (if len0 = 0 then 1 else len0) +
        (env.maxVersionString.data.length : Int) + 1
    else len0
  if buffer = none ∨ len > bufferSize then (-len, [])
  else if env.checksumEnabled = true ∧ name = GL_EXTENSIONS then
    (len, snprintfBytes bufferSize
            (str.getD [] ++ env.maxVersionString.data ++ [' ']))
  else
    match str with
    | some d => (len, d ++ [nulChar])
    | none => if bufferSize ≥ 1 then (0, [nulChar]) else (0, [])

/-- Result record of rcGetGLString: return code, bytes written into the
caller's buffer, the thread registry entry afterwards, the FrameBuffer
afterwards, and the EGL calls issued by the fallback. -/
structure GLStringResult where
  ret : Int
  written : List Char
  tInfo : RenderThreadInfo
  fb : Option FBState
  trace : List EGLCall
deriving DecidableEq

/-- rcGetGLString — phase 1 (string sourcing, possibly through the
trivial-context fallback) followed by phase 2 (length accounting with the
checksum token and the bounded buffer fill); `none` models the crash
cases of phase 1. -/
def rcGetGLString (env : Env) (name : Nat) (buffer : Option (List Char))
    (bufferSize : Int) (tInfo : Option RenderThreadInfo) (s : RCState) :
    Option GLStringResult :=
  match getGLStringPhase1 env name tInfo s with
  | none => none
  | some r =>
      some { ret := (getGLStringPhase2 env name buffer bufferSize r.1).1,
             written := (getGLStringPhase2 env name buffer bufferSize r.1).2,
             tInfo := r.2.1,
             fb := r.2.2.1,
             trace := r.2.2.2 }

/-- Whether `tok` is an initial segment of `w`. -/
def startsWith : List Char → List Char → Bool
  | [], _ => true
  | _ :: _, [] => false
  | a :: as, b :: bs => a == b && startsWith as bs

/-- Whether `tok` occurs contiguously somewhere inside `w`. -/
def containsSeq (tok : List Char) : List Char → Bool
  | [] => startsWith tok []
  | w@(_ :: rest) => startsWith tok w || containsSeq tok rest

/-- Concrete gate state: feature enabled, lock not held. -/
def gateOn : GrallocSyncState := ⟨true, false⟩

/-- Concrete FrameBuffer state for witnesses. -/
def fb0 : FBState := ⟨[(7, 1)], [], 1, 2, 8, [], []⟩

/-- Concrete environment for witnesses: checksum feature on, every flush
fails. -/
def envA : Env :=
  ⟨true, true,
   fun n => if n = 1 then some "egl14" else none,
   fun n => if n = GL_EXTENSIONS then some "GL_OES_x" else some "str2",
   fun _ => some "str1",
   "ANDROID_EMU_CHECKSUM_HELPER_v1",
   fun _ => false,
   fun _ => 5⟩

/-- Concrete environment: checksum feature off, every flush succeeds. -/
def envB : Env :=
  ⟨false, false,
   fun _ => none,
   fun n => if n = GL_EXTENSIONS then some "GL_OES_x" else some "str2",
   fun _ => some "str1",
   "ANDROID_EMU_CHECKSUM_HELPER_v1",
   fun _ => true,
   fun _ => 5⟩


/-! ### Helper lemmas -/

/-- Bumping the entry for `cb` increments exactly its recorded count. -/
theorem refCount_bumpRef (cb : Nat) :
    ∀ l, refCount cb (bumpRef cb l) = refCount cb l + 1
  | [] => by simp [bumpRef, refCount]
  | (k, n) :: rest => by
      by_cases h : k = cb <;>
        simp [bumpRef, refCount, h, refCount_bumpRef cb rest]

/-- A list starts with itself followed by anything. -/
theorem startsWith_self_append (t r : List Char) :
    startsWith t (t ++ r) = true := by
  induction t with
  | nil => rfl
  | cons a as ih => simp [startsWith, ih]

/-- An initial occurrence is an occurrence. -/
theorem containsSeq_of_startsWith {t w : List Char}
    (h : startsWith t w = true) : containsSeq t w = true := by
  cases w with
  | nil => exact h
  | cons a rest => simp [containsSeq, h]

/-- Occurrences survive extending the word in front. -/
theorem containsSeq_cons (t : List Char) (a : Char) {w : List Char}
    (h : containsSeq t w = true) : containsSeq t (a :: w) = true := by
  simp [containsSeq, h]

/-- A token occurs in any word of the shape p ++ t ++ r. -/
theorem containsSeq_append_self (t p r : List Char) :
    containsSeq t (p ++ (t ++ r)) = true := by
  induction p with
  | nil => exact containsSeq_of_startsWith (startsWith_self_append t r)
  | cons a p ih => exact containsSeq_cons t a ih

/-- If t is an initial segment of s ++ [c], then it is an initial segment
of s or it contains c. -/
theorem startsWith_append_singleton {t : List Char} {c : Char} :
    ∀ {s : List Char}, startsWith t (s ++ [c]) = true →
      startsWith t s = true ∨ c ∈ t := by
  induction t with
  | nil => intro s _; exact Or.inl rfl
  | cons x t ih =>
      intro s h
      cases s with
      | nil =>
          simp only [List.nil_append, startsWith, Bool.and_eq_true,
            beq_iff_eq] at h
          exact Or.inr (by simp [h.1])
      | cons y s =>
          simp only [List.cons_append, startsWith, Bool.and_eq_true] at h ⊢
          rcases ih h.2 with h2 | h2
          · exact Or.inl ⟨h.1, h2⟩
          · exact Or.inr (List.mem_cons_of_mem _ h2)

/-- If t occurs in s ++ [c], then it occurs in s or it contains c. -/
theorem containsSeq_append_singleton {t : List Char} {c : Char} :
    ∀ {s : List Char}, containsSeq t (s ++ [c]) = true →
      containsSeq t s = true ∨ c ∈ t := by
  intro s
  induction s with
  | nil =>
      intro h
      simp only [List.nil_append, containsSeq, Bool.or_eq_true] at h
      rcases h with h | h
      · rcases startsWith_append_singleton (s := []) h with h2 | h2
        · exact Or.inl h2
        · exact Or.inr h2
      · exact Or.inl h
  | cons a s ih =>
      intro h
      simp only [List.cons_append, containsSeq, Bool.or_eq_true] at h
      rcases h with h | h
      · rcases startsWith_append_singleton (s := a :: s) h with h2 | h2
        · exact Or.inl (containsSeq_of_startsWith h2)
        · exact Or.inr h2
      · rcases ih h with h2 | h2
        · exact Or.inl (containsSeq_cons t a h2)
        · exact Or.inr h2

/-- snprintf never stores more than the buffer capacity. -/
theorem snprintfBytes_length_le (cap : Int) (l : List Char) :
    (snprintfBytes cap l).length ≤ cap.toNat := by
  unfold snprintfBytes
  split
  · simp
  · rename_i h
    simp only [List.length_append, List.length_take, List.length_singleton]
    omega

/-! ### Claims -/

/-- C1: the claim says rcFlushWindowColorBuffer releases the Ordering Gate
on every path.  The code violates this: with the GrallocSync feature
enabled and the lock free, calling it with the backend absent, or with a
backend whose flush fails, returns -1 while the gate lock is still held
(the early returns skip unlockCb); only the success path unlocks. -/
theorem c1_flushWindowColorBuffer_leaks_gate_on_failure :
    (rcFlushWindowColorBuffer envA 5 ⟨gateOn, none⟩).1 = -1 ∧
    (rcFlushWindowColorBuffer envA 5 ⟨gateOn, none⟩).2.gralloc.mLocked
      = true ∧
    (rcFlushWindowColorBuffer envA 5 ⟨gateOn, some fb0⟩).1 = -1 ∧
    (rcFlushWindowColorBuffer envA 5 ⟨gateOn, some fb0⟩).2.gralloc.mLocked
      = true ∧
    rcFlushWindowColorBuffer envB 5 ⟨gateOn, some fb0⟩ =
      (0, ⟨⟨true, false⟩, some { fb0 with flushLog := [5] }⟩) := by
  decide

/-- C2: the claim says rcUpdateColorBuffer releases the Ordering Gate on
every return path, including the missing-backend one.  The code violates
this: after rcColorBufferCacheFlush has taken the gate, calling
rcUpdateColorBuffer with the backend absent returns -1 with the gate
still held (the early return skips unlockCb); with a backend present the
gate is released. -/
theorem c2_updateColorBuffer_leaks_gate_when_backend_absent :
    rcColorBufferCacheFlush 7 0 0 ⟨gateOn, none⟩ =
      (0, ⟨⟨true, true⟩, none⟩) ∧
    (rcUpdateColorBuffer 7 0 0 1 1 0 0 ⟨⟨true, true⟩, none⟩).1 = -1 ∧
    (rcUpdateColorBuffer 7 0 0 1 1 0 0 ⟨⟨true, true⟩, none⟩).2.gralloc.mLocked
      = true ∧
    (rcUpdateColorBuffer 7 0 0 1 1 0 0
        ⟨⟨true, true⟩, some fb0⟩).2.gralloc.mLocked = false := by
  decide

/-- C3: the claim says rcGetNumConfigs and rcGetConfigs tolerate an
absent backend.  The code violates this: both call
FrameBuffer::getFB()->getConfigs() without a null check, so with the
backend absent they dereference a null pointer (modelled as `none`)
instead of returning a neutral value. -/
theorem c3_getConfigs_null_dereference :
    rcGetNumConfigs ⟨gateOn, none⟩ = none ∧
    rcGetConfigs envA 16 ⟨gateOn, none⟩ = none ∧
    rcGetNumConfigs ⟨gateOn, some fb0⟩ = some (2, 8) := by
  decide

/-- C6: rcCreateContext asks the backend for a GLES2-family context
exactly when the version hint is 2 or 3, requests GLES1-family otherwise,
and returns handle 0 when the backend is absent. -/
theorem c6_createContext_kind :
    ∀ (config share v : Nat) (s : RCState),
      (s.fb = none → rcCreateContext config share v s = (0, s)) ∧
      (∀ fb, s.fb = some fb →
        rcCreateContext config share v s =
          (fb.nextHandle,
           { s with fb := some { fb with
               contexts := fb.contexts ++
                 [(fb.nextHandle, v == 2 || v == 3)],
               nextHandle := fb.nextHandle + 1 } }) ∧
        ((v = 2 ∨ v = 3) → (v == 2 || v == 3) = true) ∧
        (v ≠ 2 → v ≠ 3 → (v == 2 || v == 3) = false)) := by
  intro config share v s
  obtain ⟨g, f⟩ := s
  constructor
  · intro h
    cases f with
    | none => rfl
    | some fb => exact absurd h (by simp)
  · intro fb h
    cases f with
    | none => exact absurd h (by simp)
    | some fb1 =>
        obtain rfl : fb1 = fb := by injection h
        refine ⟨rfl, ?_, ?_⟩
        · rintro (rfl | rfl) <;> rfl
        · intro h2 h3
          simp [h2, h3]

/-- Witness for C6 at version hint 2 on a concrete state. -/
theorem c6_createContext_kind_witness :
    rcCreateContext 0 0 2 ⟨gateOn, some fb0⟩ =
      (fb0.nextHandle,
       { gralloc := gateOn, fb := some { fb0 with
           contexts := fb0.contexts ++ [(fb0.nextHandle, 2 == 2 || 2 == 3)],
           nextHandle := fb0.nextHandle + 1 } }) :=
  ((c6_createContext_kind 0 0 2 ⟨gateOn, some fb0⟩).2 fb0 rfl).1

/-- C8: rcOpenColorBuffer performs exactly the state change of
rcOpenColorBuffer2 — with a backend present, the color buffer's recorded
reference count goes up by one — differing only in that the return value
is discarded. -/
theorem c8_openColorBuffer_equiv :
    ∀ (cb : Nat) (s : RCState),
      rcOpenColorBuffer cb s = (rcOpenColorBuffer2 cb s).2 ∧
      (s.fb = none → rcOpenColorBuffer cb s = s ∧
        (rcOpenColorBuffer2 cb s).1 = -1) ∧
      (∀ fb, s.fb = some fb →
        rcOpenColorBuffer cb s =
          { s with fb := some { fb with cbRefs := bumpRef cb fb.cbRefs } } ∧
        refCount cb (bumpRef cb fb.cbRefs) = refCount cb fb.cbRefs + 1) := by
  intro cb s
  obtain ⟨g, f⟩ := s
  refine ⟨rfl, ?_, ?_⟩
  · intro h
    cases f with
    | none => exact ⟨rfl, rfl⟩
    | some fb => exact absurd h (by simp)
  · intro fb h
    cases f with
    | none => exact absurd h (by simp)
    | some fb1 =>
        obtain rfl : fb1 = fb := by injection h
        exact ⟨rfl, refCount_bumpRef cb _⟩

/-- Witness for C8 on a concrete state with a backend present. -/
theorem c8_openColorBuffer_equiv_witness :
    rcOpenColorBuffer 7 ⟨gateOn, some fb0⟩ =
      { gralloc := gateOn,
        fb := some { fb0 with cbRefs := bumpRef 7 fb0.cbRefs } } ∧
    refCount 7 (bumpRef 7 fb0.cbRefs) = refCount 7 fb0.cbRefs + 1 :=
  (c8_openColorBuffer_equiv 7 ⟨gateOn, some fb0⟩).2.2 fb0 rfl

/-- C9: rcColorBufferCacheFlush always returns 0, makes no backend call
(the FrameBuffer is untouched), only applies lockCb to the gate — so the
gate is held afterwards when enabled, and nothing changes when disabled —
and its result and effect do not depend on any of its arguments. -/
theorem c9_colorBufferCacheFlush_contract :
    ∀ (cb : Nat) (pc fr : Int) (s : RCState),
      (rcColorBufferCacheFlush cb pc fr s).1 = 0 ∧
      (rcColorBufferCacheFlush cb pc fr s).2.fb = s.fb ∧
      (rcColorBufferCacheFlush cb pc fr s).2.gralloc = s.gralloc.lockCb ∧
      (s.gralloc.mEnabled = true →
        (rcColorBufferCacheFlush cb pc fr s).2.gralloc.mLocked = true) ∧
      (s.gralloc.mEnabled = false →
        (rcColorBufferCacheFlush cb pc fr s).2 = s) ∧
      (∀ (cb' : Nat) (pc' fr' : Int),
        rcColorBufferCacheFlush cb' pc' fr' s =
          rcColorBufferCacheFlush cb pc fr s) := by
  intro cb pc fr s
  refine ⟨rfl, rfl, rfl, ?_, ?_, fun _ _ _ => rfl⟩
  · intro h
    simp [rcColorBufferCacheFlush, GrallocSyncState.lockCb, h]
  · intro h
    simp [rcColorBufferCacheFlush, GrallocSyncState.lockCb, h]

/-- Witness for C9: with the gate feature enabled the call leaves the
gate held. -/
theorem c9_colorBufferCacheFlush_contract_witness :
    (rcColorBufferCacheFlush 7 2 1 ⟨gateOn, some fb0⟩).2.gralloc.mLocked
      = true :=
  (c9_colorBufferCacheFlush_contract 7 2 1 ⟨gateOn, some fb0⟩).2.2.2.1 rfl

/-- C4 counterexample: the claim says a return of 0 means an empty or
absent value "was written as an empty terminated string".  For
rcQueryEGLString this is false: querying a name the EGL driver does not
answer returns 0 and writes nothing — the caller's one-byte buffer still
holds 'x', no terminator was stored. -/
theorem c4_queryEGLString_zero_writes_nothing :
    (rcQueryEGLString envA 2 (some ['x']) 1 ⟨gateOn, some fb0⟩).1 = 0 ∧
    (rcQueryEGLString envA 2 (some ['x']) 1 ⟨gateOn, some fb0⟩).2 =
      some ['x'] ∧
    ('x' = nulChar) = False := by
  decide

/-- C4 (amended): when the backend and the queried string exist,
rcQueryEGLString computes the true encoded length L (terminator
included); with a null buffer or L > bufferCapacity it writes nothing and
returns -L; otherwise it stores exactly L units (the string plus NUL,
the rest of the region untouched) and returns +L.  A return of 0 means
the backend or the queried value is absent, and then nothing is
written. -/
theorem c4_queryEGLString_contract :
    ∀ (env : Env) (name : Nat) (buffer : Option (List Char))
      (bufferSize : Int) (s : RCState),
      ((s.fb = none ∨ env.eglString name = none) →
        rcQueryEGLString env name buffer bufferSize s = (0, buffer)) ∧
      (∀ fb str, s.fb = some fb → env.eglString name = some str →
        ((buffer = none ∨ ((str.data.length : Int) + 1) > bufferSize) →
          rcQueryEGLString env name buffer bufferSize s =
            (-((str.data.length : Int) + 1), buffer)) ∧
        (∀ b, buffer = some b →
          ((str.data.length : Int) + 1) ≤ bufferSize →
          rcQueryEGLString env name buffer bufferSize s =
            ((str.data.length : Int) + 1,
             some (str.data ++ [nulChar] ++
               b.drop (str.data.length + 1))) ∧
          (str.data ++ [nulChar]).length = str.data.length + 1 ∧
          (str.data ++ [nulChar] ++
              b.drop (str.data.length + 1)).drop (str.data.length + 1) =
            b.drop (str.data.length + 1))) := by
  intro env name buffer bufferSize s
  obtain ⟨g, f⟩ := s
  constructor
  · rintro (h | h)
    · obtain rfl : f = none := h
      rfl
    · cases f with
      | none => rfl
      | some fb => simp [rcQueryEGLString, h]
  · intro fb str hfb hstr
    cases f with
    | none => exact absurd hfb (by simp)
    | some fb1 =>
        have hu : ∀ buf, rcQueryEGLString env name buf bufferSize
            ⟨g, some fb1⟩ =
            (match buf with
             | none => (-((str.data.length : Int) + 1), none)
             | some b =>
                 if ((str.data.length : Int) + 1) > bufferSize
                 then (-((str.data.length : Int) + 1), some b)
                 else (((str.data.length : Int) + 1),
                       some (str.data ++ [nulChar] ++
                         b.drop (str.data.length + 1)))) := by
          intro buf
          unfold rcQueryEGLString
          rw [hstr]
        constructor
        · rintro (rfl | h)
          · rw [hu]
          · cases buffer with
            | none => rw [hu]
            | some b =>
                rw [hu]
                exact if_pos h
        · rintro b rfl hle
          refine ⟨?_, ?_, ?_⟩
          · rw [hu]
            exact if_neg (by omega)
          · simp
          · have hlen : (str.data ++ [nulChar]).length =
                str.data.length + 1 := by simp
            rw [← hlen, List.drop_left]

/-- Witness for C4 at a concrete query with a sufficient buffer. -/
theorem c4_queryEGLString_contract_witness :
    rcQueryEGLString envA 1 (some ['x', 'y', 'z', 'w', 'v', 'u', 'q']) 7
        ⟨gateOn, some fb0⟩ =
      ((("egl14".data.length : Int) + 1),
       some ("egl14".data ++ [nulChar] ++
         (['x', 'y', 'z', 'w', 'v', 'u', 'q'].drop
            ("egl14".data.length + 1)))) :=
  (((c4_queryEGLString_contract envA 1
      (some ['x', 'y', 'z', 'w', 'v', 'u', 'q']) 7
      ⟨gateOn, some fb0⟩).2 fb0 "egl14" rfl rfl).2
      ['x', 'y', 'z', 'w', 'v', 'u', 'q'] rfl (by decide)).1

/-- Evaluation of the fill phase on the checksum path: extensions query,
feature enabled, driver string present, buffer large enough. -/
theorem phase2_checksum_eval (env : Env) (b d : List Char) (cap : Int)
    (hck : env.checksumEnabled = true)
    (hle : (d.length : Int) + (env.maxVersionString.data.length : Int) + 2
      ≤ cap) :
    getGLStringPhase2 env GL_EXTENSIONS (some b) cap (some d) =
      ((d.length : Int) + (env.maxVersionString.data.length : Int) + 2,
       d ++ env.maxVersionString.data ++ [' '] ++ [nulChar]) := by
  have h0 : ¬((d.length : Int) + 1 = 0) := by omega
  have hng : ¬((d.length : Int) + 1 +
      (env.maxVersionString.data.length : Int) + 1 > cap) := by omega
  have hsn : snprintfBytes cap (d ++ env.maxVersionString.data ++ [' ']) =
      d ++ env.maxVersionString.data ++ [' '] ++ [nulChar] := by
    unfold snprintfBytes
    rw [if_neg (by omega)]
    have hl : (d ++ env.maxVersionString.data ++ [' ']).length ≤
        (cap - 1).toNat := by
      simp only [List.length_append, List.length_singleton]
      omega
    rw [List.take_of_length_le hl]
  have hg : ¬((some b : Option (List Char)) = none ∨
      (d.length : Int) + 1 + (env.maxVersionString.data.length : Int) + 1
        > cap) :=
    not_or.mpr ⟨by simp, hng⟩
  simp only [getGLStringPhase2, Option.getD_some, and_true]
  rw [if_pos hck, if_pos hck, if_neg h0, if_neg hg, hsn, Prod.mk.injEq]
  refine ⟨by omega, by simp [List.append_assoc]⟩

/-- Evaluation of the fill phase with the checksum feature disabled and a
driver string present that fits the buffer. -/
theorem phase2_nochecksum_eval (env : Env) (name : Nat) (b d : List Char)
    (cap : Int) (hck : env.checksumEnabled = false)
    (hle : (d.length : Int) + 1 ≤ cap) :
    getGLStringPhase2 env name (some b) cap (some d) =
      ((d.length : Int) + 1, d ++ [nulChar]) := by
  have hc : ¬(env.checksumEnabled = true ∧ name = GL_EXTENSIONS) := by
    simp [hck]
  have hng : ¬((d.length : Int) + 1 > cap) := by omega
  simp [getGLStringPhase2, hc, hng]

/-- C5: for a sufficiently large buffer, GetGLString on the extensions
name with the checksum feature enabled fills the buffer with the driver
string, then the maximum checksum-protocol version token, a space and the
terminator — so the token occurs in the returned string — and the length
accounting covers the appended token; with the feature disabled the
buffer gets exactly the driver string, and (provided the driver string
itself lacks the token, which contains no NUL) the token does not occur
in the returned string. -/
theorem c5_getGLString_checksum_token :
    ∀ (env : Env) (ctx : RContext) (str : String) (b : List Char)
      (bufferSize : Int) (s : RCState),
      (if ctx.isGL2 then env.glString2 GL_EXTENSIONS
       else env.glString1 GL_EXTENSIONS) = some str →
      ((env.checksumEnabled = true →
          (str.data.length : Int) +
            (env.maxVersionString.data.length : Int) + 2 ≤ bufferSize →
          rcGetGLString env GL_EXTENSIONS (some b) bufferSize
              (some ⟨some ctx⟩) s =
            some ⟨(str.data.length : Int) +
                    (env.maxVersionString.data.length : Int) + 2,
                  str.data ++ env.maxVersionString.data ++ [' '] ++
                    [nulChar],
                  ⟨some ctx⟩, s.fb, []⟩ ∧
          containsSeq env.maxVersionString.data
            (str.data ++ env.maxVersionString.data ++ [' '] ++ [nulChar])
            = true) ∧
       (env.checksumEnabled = false →
          (str.data.length : Int) + 1 ≤ bufferSize →
          containsSeq env.maxVersionString.data str.data = false →
          nulChar ∉ env.maxVersionString.data →
          rcGetGLString env GL_EXTENSIONS (some b) bufferSize
              (some ⟨some ctx⟩) s =
            some ⟨(str.data.length : Int) + 1, str.data ++ [nulChar],
                  ⟨some ctx⟩, s.fb, []⟩ ∧
          containsSeq env.maxVersionString.data (str.data ++ [nulChar])
            = false)) := by
  intro env ctx str b cap s hstr
  have hph1 : getGLStringPhase1 env GL_EXTENSIONS (some ⟨some ctx⟩) s =
      some (some str.data, ⟨some ctx⟩, s.fb, []) := by
    have hmid : getGLStringPhase1 env GL_EXTENSIONS (some ⟨some ctx⟩) s =
        some ((if ctx.isGL2 then env.glString2 GL_EXTENSIONS
               else env.glString1 GL_EXTENSIONS).map String.data,
              ⟨some ctx⟩, s.fb, []) := rfl
    rw [hmid, hstr]
    rfl
  constructor
  · intro hck hle
    constructor
    · simp only [rcGetGLString, hph1]
      rw [phase2_checksum_eval env b str.data cap hck hle]
    · have h := containsSeq_append_self env.maxVersionString.data str.data
        ([' '] ++ [nulChar])
      simpa [List.append_assoc] using h
  · intro hck hle hnotin hnul
    constructor
    · simp only [rcGetGLString, hph1]
      rw [phase2_nochecksum_eval env GL_EXTENSIONS b str.data cap hck hle]
    · by_contra h
      rw [Bool.not_eq_false] at h
      rcases containsSeq_append_singleton h with h2 | h2
      · exact absurd h2 (by simp [hnotin])
      · exact hnul h2

/-- Witness for C5: the checksum-enabled branch at a concrete
environment and state. -/
theorem c5_getGLString_checksum_token_witness :
    rcGetGLString envA GL_EXTENSIONS (some (List.replicate 64 'q')) 64
        (some ⟨some ⟨3, true⟩⟩) ⟨gateOn, some fb0⟩ =
      some ⟨("GL_OES_x".data.length : Int) +
              (envA.maxVersionString.data.length : Int) + 2,
            "GL_OES_x".data ++ envA.maxVersionString.data ++ [' '] ++
              [nulChar],
            ⟨some ⟨3, true⟩⟩, some fb0, []⟩ ∧
    containsSeq envA.maxVersionString.data
      ("GL_OES_x".data ++ envA.maxVersionString.data ++ [' '] ++ [nulChar])
      = true :=
  (c5_getGLString_checksum_token envA ⟨3, true⟩ "GL_OES_x"
      (List.replicate 64 'q') 64 ⟨gateOn, some fb0⟩ (by decide)).1
    rfl (by decide)

/-- C7: GetGLString on a thread with no bound context, with the backend
present and the GLES2 driver answering the query, succeeds through the
trivial-context fallback: it takes configuration 0, creates a
GLES2-family context sharing nothing, creates a 1x1 pbuffer surface from
that configuration, makes the pair current with the surface as both the
draw and the read target, retains the new context in the thread registry,
and records the created context in the backend. -/
theorem c7_getGLString_trivial_fallback :
    ∀ (env : Env) (name : Nat) (str : String) (buffer : Option (List Char))
      (bufferSize : Int) (g : GrallocSyncState) (fb : FBState),
      env.glString2 name = some str →
      ∃ r, rcGetGLString env name buffer bufferSize (some ⟨none⟩)
          ⟨g, some fb⟩ = some r ∧
        r.tInfo = ⟨some ⟨fb.nextHandle, true⟩⟩ ∧
        r.tInfo.currContext.map RContext.isGL2 = some true ∧
        r.fb = some { fb with
          contexts := fb.contexts ++ [(fb.nextHandle, true)],
          nextHandle := fb.nextHandle + 2 } ∧
        r.trace = [EGLCall.getConfig 0,
                   EGLCall.createContext 0 none true,
                   EGLCall.createPbufferSurface 0 1 1,
                   EGLCall.makeCurrent (fb.nextHandle + 1)
                     (fb.nextHandle + 1) fb.nextHandle] := by
  intro env name str buffer cap g fb hstr
  have hph1 : getGLStringPhase1 env name (some ⟨none⟩) ⟨g, some fb⟩ =
      some (some str.data, ⟨some ⟨fb.nextHandle, true⟩⟩,
            some { fb with
              contexts := fb.contexts ++ [(fb.nextHandle, true)],
              nextHandle := fb.nextHandle + 2 },
            [EGLCall.getConfig 0,
             EGLCall.createContext 0 none true,
             EGLCall.createPbufferSurface 0 1 1,
             EGLCall.makeCurrent (fb.nextHandle + 1) (fb.nextHandle + 1)
               fb.nextHandle]) := by
    unfold getGLStringPhase1 create_trivial_context
    rw [hstr]
  refine ⟨{ ret := (getGLStringPhase2 env name buffer cap
                     (some str.data)).1,
            written := (getGLStringPhase2 env name buffer cap
                     (some str.data)).2,
            tInfo := ⟨some ⟨fb.nextHandle, true⟩⟩,
            fb := some { fb with
              contexts := fb.contexts ++ [(fb.nextHandle, true)],
              nextHandle := fb.nextHandle + 2 },
            trace := [EGLCall.getConfig 0,
                      EGLCall.createContext 0 none true,
                      EGLCall.createPbufferSurface 0 1 1,
                      EGLCall.makeCurrent (fb.nextHandle + 1)
                        (fb.nextHandle + 1) fb.nextHandle] },
          ?_, rfl, rfl, rfl, rfl⟩
  unfold rcGetGLString
  rw [hph1]

/-- Witness for C7 at a concrete environment and state. -/
theorem c7_getGLString_trivial_fallback_witness :
    ∃ r, rcGetGLString envB 5 (some (List.replicate 8 'q')) 8
        (some ⟨none⟩) ⟨gateOn, some fb0⟩ = some r ∧
      r.tInfo = ⟨some ⟨fb0.nextHandle, true⟩⟩ ∧
      r.tInfo.currContext.map RContext.isGL2 = some true ∧
      r.fb = some { fb0 with
        contexts := fb0.contexts ++ [(fb0.nextHandle, true)],
        nextHandle := fb0.nextHandle + 2 } ∧
      r.trace = [EGLCall.getConfig 0,
                 EGLCall.createContext 0 none true,
                 EGLCall.createPbufferSurface 0 1 1,
                 EGLCall.makeCurrent (fb0.nextHandle + 1)
                   (fb0.nextHandle + 1) fb0.nextHandle] :=
  c7_getGLString_trivial_fallback envB 5 "str2"
    (some (List.replicate 8 'q')) 8 gateOn fb0 (by decide)

/-- The fill phase never stores more bytes than the buffer capacity. -/
theorem phase2_written_le (env : Env) (name : Nat)
    (buffer : Option (List Char)) (cap : Int) (str : Option (List Char)) :
    (getGLStringPhase2 env name buffer cap str).2.length ≤ cap.toNat := by
  cases str with
  | some d =>
      have h0 : ¬((d.length : Int) + 1 = 0) := by omega
      by_cases hck : env.checksumEnabled = true ∧ name = GL_EXTENSIONS
      · by_cases hg : buffer = none ∨ (d.length : Int) + 1 +
            (env.maxVersionString.data.length : Int) + 1 > cap
        · simp only [getGLStringPhase2, Option.getD_some]
          rw [if_pos hck, if_pos hck, if_neg h0, if_pos hg]
          simp
        · simp only [getGLStringPhase2, Option.getD_some]
          rw [if_pos hck, if_pos hck, if_neg h0, if_neg hg]
          exact snprintfBytes_length_le cap _
      · by_cases hg : buffer = none ∨ (d.length : Int) + 1 > cap
        · simp only [getGLStringPhase2]
          rw [if_neg hck, if_neg hck, if_pos hg]
          simp
        · have hcap := (not_or.mp hg).2
          simp only [getGLStringPhase2]
          rw [if_neg hck, if_neg hck, if_neg hg]
          simp only [List.length_append, List.length_singleton]
          omega
  | none =>
      by_cases hck : env.checksumEnabled = true ∧ name = GL_EXTENSIONS
      · by_cases hg : buffer = none ∨ (1 : Int) +
            (env.maxVersionString.data.length : Int) + 1 > cap
        · simp only [getGLStringPhase2, Option.getD_none]
          rw [if_pos hck, if_pos hck, if_pos trivial, if_pos hg]
          simp
        · simp only [getGLStringPhase2, Option.getD_none]
          rw [if_pos hck, if_pos hck, if_pos trivial, if_neg hg]
          exact snprintfBytes_length_le cap _
      · by_cases hg : buffer = none ∨ (0 : Int) > cap
        · simp only [getGLStringPhase2]
          rw [if_neg hck, if_neg hck, if_pos hg]
          simp
        · simp only [getGLStringPhase2]
          rw [if_neg hck, if_neg hck, if_neg hg]
          by_cases hc1 : cap ≥ 1
          · rw [if_pos hc1]
            simp only [List.length_singleton]
            omega
          · rw [if_neg hc1]
            simp

/-- C10: whenever rcGetGLString completes, the bytes it stored into the
caller's buffer never exceed the declared buffer size. -/
theorem c10_getGLString_write_bounded :
    ∀ (env : Env) (name : Nat) (buffer : Option (List Char))
      (bufferSize : Int) (tInfo : Option RenderThreadInfo) (s : RCState)
      (r : GLStringResult),
      rcGetGLString env name buffer bufferSize tInfo s = some r →
      r.written.length ≤ bufferSize.toNat := by
  intro env name buffer cap tInfo s r h
  unfold rcGetGLString at h
  cases hph : getGLStringPhase1 env name tInfo s with
  | none => rw [hph] at h; cases h
  | some p =>
      rw [hph] at h
      injection h with h2
      subst h2
      exact phase2_written_le env name buffer cap p.1

/-- Witness for C10 on a concrete completed query. -/
theorem c10_getGLString_write_bounded_witness :
    (⟨("GL_OES_x".data.length : Int) +
        (envA.maxVersionString.data.length : Int) + 2,
      "GL_OES_x".data ++ envA.maxVersionString.data ++ [' '] ++ [nulChar],
      ⟨some ⟨3, true⟩⟩, some fb0, []⟩ :
        GLStringResult).written.length ≤ (64 : Int).toNat :=
  c10_getGLString_write_bounded envA GL_EXTENSIONS
    (some (List.replicate 64 'q')) 64 (some ⟨some ⟨3, true⟩⟩)
    ⟨gateOn, some fb0⟩ _ (by decide)
